import Mathlib

/-!
Shallow embedding of the meroshare-ipobot automation core
(server/automation.ts and server/index.ts) together with proofs of
the specification's claims about it.

The browser/portal side effects are modelled by explicit environment
records (which controls become visible, what the portal answered, what
text the page shows); the repository's control flow over those
observations is translated function by function.
-/

namespace Meroshare

/-- Decidable equality for `Except`, used to evaluate outcomes on witnesses. -/
instance {ε α : Type} [DecidableEq ε] [DecidableEq α] : DecidableEq (Except ε α)
  | Except.ok a, Except.ok b =>
      if h : a = b then Decidable.isTrue (by rw [h])
      else Decidable.isFalse (by intro hc; cases hc; exact h rfl)
  | Except.ok _, Except.error _ => Decidable.isFalse (by intro hc; cases hc)
  | Except.error _, Except.ok _ => Decidable.isFalse (by intro hc; cases hc)
  | Except.error e, Except.error f =>
      if h : e = f then Decidable.isTrue (by rw [h])
      else Decidable.isFalse (by intro hc; cases hc; exact h rfl)

/-- JS `hay.includes(needle)`: substring occurrence test. -/
def strContains (hay needle : String) : Bool :=
  let h := hay.toList
  let n := needle.toList
  (List.range (h.length + 1)).any (fun i => n.isPrefixOf (h.drop i))

/-- Characters removed by JS `String.prototype.trim` (the whitespace found in
the strings this system handles). -/
def wsChar (c : Char) : Bool :=
  c = ' ' || c = '\t' || c = '\n' || c = '\r'

/-- JS `s.trim()`. -/
def jsTrim (s : String) : String :=
  String.mk (((s.data.dropWhile wsChar).reverse.dropWhile wsChar).reverse)

/-- JS `s.toLowerCase()` (ASCII, which covers the vocabulary in play). -/
def strLower (s : String) : String :=
  String.mk (s.data.map Char.toLower)

/-- Case-insensitive substring test (Playwright `hasText` / `/…/i` regex filters). -/
def strContainsCI (hay needle : String) : Bool :=
  strContains (strLower hay) (strLower needle)

-- ── Data model (types from server/automation.ts) ────────────────────────────

/-- The `Credential` record: `{ DP_CODE, username, password, CRN, TPIN? }`. -/
structure Credential where
  DP_CODE : String
  username : String
  password : String
  CRN : String
  TPIN : Option String
deriving DecidableEq, Repr

/-- The `DPInfo` record: one entry of the captured depository-participant list. -/
structure DPInfo where
  id : Nat
  code : String
  name : String
deriving DecidableEq, Repr

/-- The `AccountStatusType` union from automation.ts. -/
inductive AccountStatusType where
  | pending
  | running
  | already_applied
  | success
  | error
  | login_failed
deriving DecidableEq, Repr

/-- The `AccountStatus` record emitted by the bulk orchestrator. -/
structure AccountStatus where
  account : String
  status : AccountStatusType
  message : String
deriving DecidableEq, Repr

/-- Payload of an `issue` event. -/
structure IssueData where
  name : String
  subGroup : String
  shareType : String
  shareGroup : String
deriving DecidableEq, Repr

/-- Payload of a `report` event. -/
structure ReportData where
  index : Nat
  total : Nat
  name : String
  shareType : String
  status : String
  remarks : String
deriving DecidableEq, Repr

/-- The `AutomationEvent` discriminated union from automation.ts. -/
inductive AutomationEvent where
  | log (message : String)
  | issue (data : IssueData)
  | report (data : ReportData)
  | apply_success (message : String)
  | account_status (data : AccountStatus)
  | done
  | error (message : String)
deriving DecidableEq, Repr

/-- One `<option>` of a `<select>` control: its text content and value attribute
(Playwright `getAttribute('value')` null is modelled as `""`, matching the
`|| ''` coercion in the code). -/
structure SelectOption where
  text : String
  value : String
deriving DecidableEq, Repr

/-- One `<button>` inside an issue item: visibility and text content. -/
structure ButtonInfo where
  visible : Bool
  text : String
deriving DecidableEq, Repr

/-- One `.company-list` item on the ASBA page: company-name text and its buttons. -/
structure IssueItem where
  name : String
  buttons : List ButtonInfo
deriving DecidableEq, Repr

-- ── selectFirstRealOption (automation.ts) ───────────────────────────────────

/-- The eligibility test of `selectFirstRealOption`: trimmed text non-empty and
not a placeholder, value non-empty and not a null/undefined sentinel. -/
def optionEligible (o : SelectOption) : Bool :=
  let text := jsTrim o.text
  text ≠ "" &&
  !(strContains (strLower text) "please choose") &&
  !(strContains (strLower text) "select") &&
  o.value ≠ "" &&
  o.value ≠ "null" &&
  o.value ≠ "undefined"

/-- Loop body of `selectFirstRealOption`: scan options from index `i` upward. -/
def selectFirstRealOptionAux (fieldName : String) : List SelectOption → Nat → Except String (Nat × String)
  | [], _ => Except.error ("[" ++ fieldName ++ "] No valid (non-placeholder) option found")
  | o :: rest, i =>
      if optionEligible o then Except.ok (i, jsTrim o.text)
      else selectFirstRealOptionAux fieldName rest (i + 1)

/-- Function `selectFirstRealOption`: select the first non-placeholder option of a
`<select>`; returns the chosen index and (trimmed) text, or fails when no
eligible option exists. -/
def selectFirstRealOption (options : List SelectOption) (fieldName : String) :
    Except String (Nat × String) :=
  selectFirstRealOptionAux fieldName options 0

-- ── Participant (DP) resolution and login-request rewrite ───────────────────

/-- The lookup `dpList.find((dp) => dp.code === dpCode)` from `loginToMeroshare`. -/
def resolveDP (dpList : List DPInfo) (dpCode : String) : Option DPInfo :=
  dpList.find? (fun dp => dp.code = dpCode)

/-- The login POST payload; only `clientId` is inspected by the interceptor. -/
structure LoginPayload where
  clientId : Nat
  rest : String
deriving DecidableEq, Repr

/-- Route interceptor body from `loginToMeroshare`: when the outgoing login
POST carries the sentinel `clientId = 0`, rewrite it to the resolved DP id;
otherwise the payload passes through untouched. -/
def rewriteAuthPost (payload : LoginPayload) (targetId : Nat) : LoginPayload :=
  if payload.clientId = 0 then { payload with clientId := targetId } else payload

-- ── loginToMeroshare ────────────────────────────────────────────────────────

/-- Environment for one login attempt: which waits succeed and what the
portal delivered. -/
structure LoginEnv where
  gotoOk : Bool
  captureOk : Bool
  dpList : List DPInfo
  dpDropdown : List SelectOption
  usernameFieldOk : Bool
  passwordFieldOk : Bool
  loginRespStatus : Option Nat
  loginRespBody : String
  dashboardOk : Bool
deriving Repr

/-- Formatting of the first 10 available DP codes in the not-found error. -/
def dpAvailableSummary (dpList : List DPInfo) : String :=
  String.intercalate ", " ((dpList.take 10).map (fun dp => dp.code ++ " (" ++ dp.name ++ ")"))

/-- The typed not-found error thrown when no captured DP matches the code. -/
def dpNotFoundMsg (dpList : List DPInfo) (dpCode : String) : String :=
  "DP with code " ++ dpCode ++ " not found. Available (first 10): " ++
    dpAvailableSummary dpList ++ "..."

/-- Function `selectDPInDropdown`: find the first option whose text contains the search
text (Playwright `hasText`, case-insensitive); fail when its value is falsy
or when no option ever matches. -/
def selectDPInDropdown (options : List SelectOption) (searchText : String) :
    Except String Unit :=
  match options.find? (fun o => strContainsCI o.text searchText) with
  | none => Except.error "Timeout waiting for DP option in dropdown"
  | some o =>
      if o.value = "" then
        Except.error ("DP option containing \"" ++ searchText ++ "\" not found in dropdown")
      else Except.ok ()

/-- The log line `Captured N DPs from API. Looking for code C...`. -/
def capturedDPsMsg (n : Nat) (dpCode : String) : String :=
  "Captured " ++ toString n ++ " DPs from API. Looking for code " ++ dpCode ++ "..."

/-- The log line `DP resolved: ...`. -/
def dpResolvedMsg (dp : DPInfo) : String :=
  "DP resolved: " ++ dp.name ++ " (code=" ++ dp.code ++ ", id=" ++ toString dp.id ++ ")"

/-- The log line `Logging in as "U" with DP "D" ...`. -/
def loggingInMsg (username dpName : String) : String :=
  "Logging in as \"" ++ username ++ "\" with DP \"" ++ dpName ++ "\" ..."

/-- Function `loginToMeroshare`: returns the `log` messages emitted (in order) and the
outcome — `ok` on a fully confirmed login, `error` with the thrown message
otherwise. Every emission in the source is `log`-typed, so messages are kept
as plain strings. -/
def loginToMeroshare (env : LoginEnv) (cred : Credential) (dpCode : String) :
    List String × Except String Unit :=
  if ¬ env.gotoOk then ([], Except.error "Timeout waiting for login page") else
  let logs1 := ["On login page"]
  if ¬ env.captureOk then (logs1, Except.error "Timeout waiting for login page after reload") else
  let logs2 := logs1 ++ [capturedDPsMsg env.dpList.length dpCode]
  match resolveDP env.dpList dpCode with
  | none => (logs2, Except.error (dpNotFoundMsg env.dpList dpCode))
  | some targetDP =>
      let logs3 := logs2 ++ [dpResolvedMsg targetDP]
      let logs4 := logs3 ++ [loggingInMsg cred.username targetDP.name]
      match selectDPInDropdown env.dpDropdown targetDP.name with
      | Except.error m => (logs4, Except.error m)
      | Except.ok _ =>
          if ¬ env.usernameFieldOk then
            (logs4, Except.error "Timeout waiting for username field") else
          if ¬ env.passwordFieldOk then
            (logs4, Except.error "Timeout waiting for password field") else
          match env.loginRespStatus with
          | none => (logs4, Except.error "Timeout waiting for login response")
          | some st =>
              if st ≠ 200 then
                (logs4, Except.error ("Login failed with HTTP " ++ toString st ++ ": " ++ env.loginRespBody))
              else if ¬ env.dashboardOk then
                (logs4, Except.error "Timeout waiting for dashboard")
              else
                (logs4 ++ ["Logged in successfully — on dashboard"], Except.ok ())

-- ── bulkApplyForIPO ─────────────────────────────────────────────────────────

/-- Form-field interactions performed while driving the application form. -/
inductive FormAction where
  | clickApply
  | selectBank (index : Nat)
  | selectAccount (index : Nat)
  | typeKitta (value : String)
  | typeCRN (value : String)
  | checkDeclaration
  | clickProceed
  | typePin (value : String)
  | clickFinalApply
deriving DecidableEq, Repr

/-- Environment for one account of a bulk run: login environment plus what the
ASBA page and application form present. `Option` fields model controls that
may never become visible (Playwright waits that time out and throw). -/
structure BulkEnv where
  login : LoginEnv
  asbaNavOk : Bool
  issues : List IssueItem
  bankControl : Option (List SelectOption)
  accountControl : Option (List SelectOption)
  kittaVisible : Bool
  crnVisible : Bool
  declaration : Option Bool
  proceedOk : Bool
  pinVisible : Bool
  finalBtnVisible : Bool
  bodyText : String
deriving Repr

/-- The expression `accountPINs[accountName] || defaultPIN`: the per-account override is used
only when present and truthy (a present empty string is falsy in JS and falls
back to the default). -/
def effectivePin (accountPINs : List (String × String)) (accountName defaultPIN : String) :
    String :=
  match accountPINs.lookup accountName with
  | some p => if p = "" then defaultPIN else p
  | none => defaultPIN

/-- The target-company search loop: first item whose trimmed name matches the
target case-insensitively. -/
def findTargetItem (issues : List IssueItem) (targetCompanyName : String) : Option IssueItem :=
  issues.find? (fun item => strLower (jsTrim item.name) = strLower targetCompanyName)

/-- Apply/Edit detection loop over the visible buttons of the target item:
a visible button whose trimmed lowercase text is exactly `edit` / `apply`. -/
def hasEditButton (item : IssueItem) : Bool :=
  item.buttons.any (fun b => b.visible && strLower (jsTrim b.text) = "edit")

/-- Whether a visible `apply` button exists on the item (`applyBtn !== null`). -/
def hasApplyButton (item : IssueItem) : Bool :=
  item.buttons.any (fun b => b.visible && strLower (jsTrim b.text) = "apply")

/-- The form-filling section of the bulk loop (bank → account → kitta → CRN →
declaration → proceed → PIN → final apply): the interactions performed before
the first failure, and the outcome (`ok` when the final apply was clicked,
`error` with the thrown message otherwise). -/
def formFill (env : BulkEnv) (appliedKitta crn pin : String) :
    List FormAction × Except String Unit :=
  match env.bankControl with
  | none => ([], Except.error "Timeout waiting for Bank select")
  | some bankOpts =>
    match selectFirstRealOption bankOpts "Bank" with
    | Except.error m => ([], Except.error m)
    | Except.ok bi =>
      let acts1 := [FormAction.selectBank bi.1]
      match env.accountControl with
      | none => (acts1, Except.error "Timeout waiting for Account Number select")
      | some acctOpts =>
        match selectFirstRealOption acctOpts "Account Number" with
        | Except.error m => (acts1, Except.error m)
        | Except.ok ai =>
          let acts2 := acts1 ++ [FormAction.selectAccount ai.1]
          if ¬ env.kittaVisible then
            (acts2, Except.error "Timeout waiting for Applied Kitta input") else
          let acts3 := acts2 ++ [FormAction.typeKitta appliedKitta]
          if ¬ env.crnVisible then
            (acts3, Except.error "Timeout waiting for CRN input") else
          let acts4 := acts3 ++ [FormAction.typeCRN crn]
          match env.declaration with
          | none => (acts4, Except.error "Timeout waiting for declaration checkbox")
          | some checked =>
            let acts5 := acts4 ++ (if checked then [] else [FormAction.checkDeclaration])
            if ¬ env.proceedOk then
              (acts5, Except.error "Timeout waiting for Proceed button") else
            let acts6 := acts5 ++ [FormAction.clickProceed]
            if ¬ env.pinVisible then
              (acts6, Except.error "Timeout waiting for transaction PIN input") else
            let acts7 := acts6 ++ [FormAction.typePin pin]
            if ¬ env.finalBtnVisible then
              (acts7, Except.error "Timeout waiting for final Apply button") else
            (acts7 ++ [FormAction.clickFinalApply], Except.ok ())

/-- The outcome component of `formFill`, which does not depend on the values
typed into the fields (only on which controls appear and which options exist). -/
def formOutcome (env : BulkEnv) : Except String Unit :=
  match env.bankControl with
  | none => Except.error "Timeout waiting for Bank select"
  | some bankOpts =>
    match selectFirstRealOption bankOpts "Bank" with
    | Except.error m => Except.error m
    | Except.ok _ =>
      match env.accountControl with
      | none => Except.error "Timeout waiting for Account Number select"
      | some acctOpts =>
        match selectFirstRealOption acctOpts "Account Number" with
        | Except.error m => Except.error m
        | Except.ok _ =>
          if ¬ env.kittaVisible then
            Except.error "Timeout waiting for Applied Kitta input" else
          if ¬ env.crnVisible then
            Except.error "Timeout waiting for CRN input" else
          match env.declaration with
          | none => Except.error "Timeout waiting for declaration checkbox"
          | some _ =>
            if ¬ env.proceedOk then
              Except.error "Timeout waiting for Proceed button" else
            if ¬ env.pinVisible then
              Except.error "Timeout waiting for transaction PIN input" else
            if ¬ env.finalBtnVisible then
              Except.error "Timeout waiting for final Apply button" else
            Except.ok ()

/-- The success-vocabulary check on the confirmation surface:
`bodyText.toLowerCase().includes('success') || ….includes('applied')`. -/
def successVocab (bodyText : String) : Bool :=
  strContains (strLower bodyText) "success" || strContains (strLower bodyText) "applied"

/-- Shorthand for an `account_status` event. -/
def acctStatus (account : String) (status : AccountStatusType) (message : String) :
    AutomationEvent :=
  AutomationEvent.account_status ⟨account, status, message⟩

/-- One iteration of the bulk loop for one account: the events emitted
(`running` admission, the login logs, and exactly one terminal
`account_status`) and the form interactions performed. -/
def processAccount (targetCompanyName appliedKitta defaultPIN : String)
    (accountPINs : List (String × String)) (accountName : String) (cred : Credential)
    (env : BulkEnv) : List AutomationEvent × List FormAction :=
  let running1 := acctStatus accountName AccountStatusType.running "Logging in..."
  let loginRes := loginToMeroshare env.login cred cred.DP_CODE
  let loginEvents := loginRes.1.map AutomationEvent.log
  match loginRes.2 with
  | Except.error e =>
      ([running1] ++ loginEvents ++
        [acctStatus accountName AccountStatusType.login_failed ("Login failed: " ++ e)], [])
  | Except.ok _ =>
    if ¬ env.asbaNavOk then
      ([running1] ++ loginEvents ++
        [acctStatus accountName AccountStatusType.error "Timeout waiting for My ASBA page"], [])
    else if env.issues.length = 0 then
      ([running1] ++ loginEvents ++
        [acctStatus accountName AccountStatusType.error "No open issues found on this account"], [])
    else
      match findTargetItem env.issues targetCompanyName with
      | none =>
          ([running1] ++ loginEvents ++
            [acctStatus accountName AccountStatusType.error
              ("IPO \"" ++ targetCompanyName ++ "\" not found in this account's issue list")], [])
      | some item =>
        if hasEditButton item && ¬ hasApplyButton item then
          ([running1] ++ loginEvents ++
            [acctStatus accountName AccountStatusType.already_applied
              "Already applied (Edit button found)"], [])
        else if ¬ hasApplyButton item then
          ([running1] ++ loginEvents ++
            [acctStatus accountName AccountStatusType.error
              "No Apply button found for this IPO"], [])
        else
          let running2 := acctStatus accountName AccountStatusType.running
            "Filling application form..."
          let pin := effectivePin accountPINs accountName defaultPIN
          let fill := formFill env appliedKitta cred.CRN pin
          let acts := FormAction.clickApply :: fill.1
          match fill.2 with
          | Except.error m =>
              ([running1] ++ loginEvents ++ [running2] ++
                [acctStatus accountName AccountStatusType.error m], acts)
          | Except.ok _ =>
              if successVocab env.bodyText then
                ([running1] ++ loginEvents ++ [running2] ++
                  [acctStatus accountName AccountStatusType.success
                    "Application submitted successfully"], acts)
              else
                ([running1] ++ loginEvents ++ [running2] ++
                  [acctStatus accountName AccountStatusType.success
                    "Application submitted. Check Meroshare for confirmation."], acts)

/-- One account of a bulk batch: its name, credential, and the environment its
isolated session encounters. -/
structure AccountRun where
  name : String
  cred : Credential
  env : BulkEnv

/-- Function `bulkApplyForIPO`: the opening log, the per-account event blocks in input
order (each produced by `processAccount`), then the single final `done`. -/
def bulkApplyForIPO (runs : List AccountRun) (targetCompanyName appliedKitta defaultPIN : String)
    (accountPINs : List (String × String)) : List AutomationEvent :=
  AutomationEvent.log ("Bulk apply starting for \"" ++ targetCompanyName ++ "\" across " ++
      toString runs.length ++ " account(s)") ::
    (runs.flatMap (fun r =>
      (processAccount targetCompanyName appliedKitta defaultPIN accountPINs
        r.name r.cred r.env).1)) ++ [AutomationEvent.done]

-- ── applyForIPO (single-account flow) ───────────────────────────────────────

/-- Environment for one single-account application run. `branch` / `amount`
are the auto-populated inputs when present (count > 0), with their values. -/
structure ApplyEnv where
  login : LoginEnv
  asbaNavOk : Bool
  issues : List IssueItem
  bankControl : Option (List SelectOption)
  accountControl : Option (List SelectOption)
  branch : Option String
  kittaVisible : Bool
  amount : Option String
  crnVisible : Bool
  declaration : Option Bool
  proceedOk : Bool
  pinVisible : Bool
  finalBtnVisible : Bool
  bodyText : String
deriving Repr

/-- The confirmation-surface check at the end of `applyForIPO`: recognized
success vocabulary yields `apply_success`; otherwise an informational `log`. -/
def applyConfirmEvent (bodyText companyName : String) : AutomationEvent :=
  if successVocab bodyText then
    AutomationEvent.apply_success ("Successfully applied for " ++ companyName)
  else
    AutomationEvent.log ("Application submitted for " ++ companyName ++
      ". Check Meroshare for status.")

/-- The company name shown for the target item: trimmed text or `Unknown`. -/
def companyNameOf (item : IssueItem) : String :=
  if jsTrim item.name = "" then "Unknown" else jsTrim item.name

/-- Body of the `try` block of `applyForIPO`: emitted events and outcome. -/
def applyForIPOBody (env : ApplyEnv) (cred : Credential) (companyIndex : Int)
    (appliedKitta : String) : List AutomationEvent × Except String Unit :=
  let loginRes := loginToMeroshare env.login cred cred.DP_CODE
  let loginEvents := loginRes.1.map AutomationEvent.log
  match loginRes.2 with
  | Except.error e => (loginEvents, Except.error e)
  | Except.ok _ =>
    if ¬ env.asbaNavOk then
      (loginEvents, Except.error "Timeout waiting for My ASBA page") else
    let evs1 := loginEvents ++ [AutomationEvent.log "Navigated to My ASBA"]
    let itemCount := env.issues.length
    if h0 : itemCount = 0 then
      (evs1, Except.error "No open issues found in \"Apply for Issue\" tab")
    else if hidx : companyIndex < 0 ∨ itemCount ≤ companyIndex then
      (evs1, Except.error ("Invalid company index " ++ toString companyIndex ++
        ". Found " ++ toString itemCount ++ " issues."))
    else
      let item := env.issues.get ⟨companyIndex.toNat, by omega⟩
      let companyName := companyNameOf item
      let evs2 := evs1 ++ [AutomationEvent.log ("Applying for: " ++ companyName),
        AutomationEvent.log "Apply form loaded"]
      match env.bankControl with
      | none => (evs2, Except.error "Timeout waiting for Bank select")
      | some bankOpts =>
        match selectFirstRealOption bankOpts "Bank" with
        | Except.error m => (evs2, Except.error m)
        | Except.ok bi =>
          let evs3 := evs2 ++ [AutomationEvent.log ("Bank selected: " ++ bi.2)]
          match env.accountControl with
          | none => (evs3, Except.error "Timeout waiting for Account Number select")
          | some acctOpts =>
            match selectFirstRealOption acctOpts "Account Number" with
            | Except.error m => (evs3, Except.error m)
            | Except.ok ai =>
              let evs4 := evs3 ++ [AutomationEvent.log ("Account Number selected: " ++ ai.2)]
              let evs5 := evs4 ++ (match env.branch with
                | none => []
                | some v => [AutomationEvent.log ("Branch: " ++
                    (if v = "" then "(auto-populated)" else v))])
              if ¬ env.kittaVisible then
                (evs5, Except.error "Timeout waiting for Applied Kitta input") else
              let evs6 := evs5 ++ [AutomationEvent.log ("Applied Kitta: " ++ appliedKitta)]
              let evs7 := evs6 ++ (match env.amount with
                | none => []
                | some v => [AutomationEvent.log ("Amount: " ++
                    (if v = "" then "(auto-calculated)" else v))])
              if ¬ env.crnVisible then
                (evs7, Except.error "Timeout waiting for CRN input") else
              let evs8 := evs7 ++ [AutomationEvent.log ("CRN filled: " ++ cred.CRN)]
              match env.declaration with
              | none => (evs8, Except.error "Timeout waiting for declaration checkbox")
              | some _ =>
                let evs9 := evs8 ++ [AutomationEvent.log "Declaration checkbox checked"]
                if ¬ env.proceedOk then
                  (evs9, Except.error "Timeout waiting for Proceed button") else
                let evs10 := evs9 ++ [AutomationEvent.log "Clicked Proceed"]
                if ¬ env.pinVisible then
                  (evs10, Except.error "Timeout waiting for transaction PIN input") else
                let evs11 := evs10 ++ [AutomationEvent.log "Transaction PIN entered"]
                if ¬ env.finalBtnVisible then
                  (evs11, Except.error "Timeout waiting for final Apply button") else
                let evs12 := evs11 ++
                  [AutomationEvent.log "Clicked Apply — submitting application...",
                   applyConfirmEvent env.bodyText companyName]
                (evs12, Except.ok ())

/-- Function `applyForIPO`: starting log, the try-block events, then `done` on success
or a single terminal `error` event when the body threw. -/
def applyForIPO (env : ApplyEnv) (accountName : String) (cred : Credential)
    (companyIndex : Int) (appliedKitta transactionPIN : String) : List AutomationEvent :=
  let body := applyForIPOBody env cred companyIndex appliedKitta
  AutomationEvent.log ("Starting IPO application for \"" ++ accountName ++ "\" ...") ::
    body.1 ++ (match body.2 with
      | Except.ok _ => [AutomationEvent.done]
      | Except.error m => [AutomationEvent.error m])

-- ── server/index.ts: busy flag and endpoint admission ───────────────────────

/-- The server's only mutable state: the shared `running` busy flag. -/
structure ServerSt where
  running : Bool
deriving DecidableEq, Repr

/-- Outcome of handling one HTTP request: 409 conflict, 400, 404, or an
opened SSE stream. -/
inductive ApiResponse where
  | conflict
  | badRequest (msg : String)
  | notFound (msg : String)
  | sse
deriving DecidableEq, Repr

/-- Keyed read-only access into the credential store. -/
def lookupCred (creds : List (String × Credential)) (name : String) : Option Credential :=
  creds.lookup name

/-- The 409 body shared by all endpoints. -/
def conflictMsg : String := "An automation is already running. Please wait."

/-- Request body of `POST /api/run` (`none` models an absent field). -/
structure RunBody where
  account : Option String
  maxReports : Nat
deriving Repr

/-- Request body of `POST /api/scan`. -/
structure ScanBody where
  account : Option String
deriving Repr

/-- Request body of `POST /api/apply`. -/
structure ApplyBody where
  account : Option String
  companyIndex : Option Int
  appliedKitta : Option String
  transactionPIN : Option String
deriving Repr

/-- Request body of `POST /api/bulk-apply`. -/
structure BulkBody where
  accounts : Option (List String)
  companyName : Option String
  appliedKitta : Option String
  transactionPIN : Option String
  accountPINs : List (String × String)
deriving Repr

/-- JS truthiness for an optional string field: absent or empty is falsy. -/
def strFalsy : Option String → Bool
  | none => true
  | some s => s = ""

/-- Handler of `POST /api/run`: conflict check, validation, then admission
(SSE opened, busy flag set, automation started). The `Bool` component records
whether an automation was started. -/
def apiRun (st : ServerSt) (creds : List (String × Credential)) (body : RunBody) :
    ServerSt × ApiResponse × Bool :=
  if st.running then (st, ApiResponse.conflict, false)
  else match body.account with
  | none => (st, ApiResponse.badRequest "Missing \"account\" in request body", false)
  | some a =>
    if a = "" then (st, ApiResponse.badRequest "Missing \"account\" in request body", false)
    else match lookupCred creds a with
    | none => (st, ApiResponse.notFound ("Account \"" ++ a ++ "\" not found"), false)
    | some _ => (⟨true⟩, ApiResponse.sse, true)

/-- Handler of `POST /api/scan`. -/
def apiScan (st : ServerSt) (creds : List (String × Credential)) (body : ScanBody) :
    ServerSt × ApiResponse × Bool :=
  if st.running then (st, ApiResponse.conflict, false)
  else match body.account with
  | none => (st, ApiResponse.badRequest "Missing \"account\" in request body", false)
  | some a =>
    if a = "" then (st, ApiResponse.badRequest "Missing \"account\" in request body", false)
    else match lookupCred creds a with
    | none => (st, ApiResponse.notFound ("Account \"" ++ a ++ "\" not found"), false)
    | some _ => (⟨true⟩, ApiResponse.sse, true)

/-- Handler of `POST /api/apply`. -/
def apiApply (st : ServerSt) (creds : List (String × Credential)) (body : ApplyBody) :
    ServerSt × ApiResponse × Bool :=
  if st.running then (st, ApiResponse.conflict, false)
  else if strFalsy body.account then
    (st, ApiResponse.badRequest "Missing \"account\" in request body", false)
  else if body.companyIndex.isNone then
    (st, ApiResponse.badRequest "Missing \"companyIndex\" in request body", false)
  else if strFalsy body.appliedKitta then
    (st, ApiResponse.badRequest "Missing \"appliedKitta\" in request body", false)
  else if strFalsy body.transactionPIN then
    (st, ApiResponse.badRequest "Missing \"transactionPIN\" in request body", false)
  else match body.account with
  | none => (st, ApiResponse.badRequest "Missing \"account\" in request body", false)
  | some a =>
    match lookupCred creds a with
    | none => (st, ApiResponse.notFound ("Account \"" ++ a ++ "\" not found"), false)
    | some _ => (⟨true⟩, ApiResponse.sse, true)

/-- The `Validate all accounts exist before starting` loop of
`POST /api/bulk-apply`: stop with 404 at the first name without a credential,
else collect the entries in order. -/
def validateAccounts (creds : List (String × Credential)) :
    List String → Except String (List (String × Credential))
  | [] => Except.ok []
  | n :: rest =>
    match lookupCred creds n with
    | none => Except.error ("Account \"" ++ n ++ "\" not found")
    | some c =>
      match validateAccounts creds rest with
      | Except.error m => Except.error m
      | Except.ok entries => Except.ok ((n, c) :: entries)

/-- Handler of `POST /api/bulk-apply`. -/
def apiBulkApply (st : ServerSt) (creds : List (String × Credential)) (body : BulkBody) :
    ServerSt × ApiResponse × Bool :=
  if st.running then (st, ApiResponse.conflict, false)
  else match body.accounts with
  | none => (st, ApiResponse.badRequest "Missing or empty \"accounts\" array in request body", false)
  | some accountNames =>
    if accountNames.isEmpty then
      (st, ApiResponse.badRequest "Missing or empty \"accounts\" array in request body", false)
    else if strFalsy body.companyName then
      (st, ApiResponse.badRequest "Missing \"companyName\" in request body", false)
    else if strFalsy body.appliedKitta then
      (st, ApiResponse.badRequest "Missing \"appliedKitta\" in request body", false)
    else if strFalsy body.transactionPIN then
      (st, ApiResponse.badRequest "Missing \"transactionPIN\" in request body", false)
    else match validateAccounts creds accountNames with
    | Except.error m => (st, ApiResponse.notFound m, false)
    | Except.ok _ => (⟨true⟩, ApiResponse.sse, true)

/-- The `.finally(() => running = false)` completion handler: unconditionally
clears the busy flag when the automation's promise settles. -/
def settleAutomation (_ : ServerSt) : ServerSt := ⟨false⟩

-- ── Event-trace observations ────────────────────────────────────────────────

/-- The `account_status` payloads of an event trace, in order. -/
def statusEvents (evs : List AutomationEvent) : List AccountStatus :=
  evs.filterMap (fun e => match e with
    | AutomationEvent.account_status d => some d
    | _ => none)

/-- Whether a status is terminal (per the spec's AccountStatus taxonomy). -/
def isTerminal : AccountStatusType → Bool
  | AccountStatusType.already_applied => true
  | AccountStatusType.success => true
  | AccountStatusType.error => true
  | AccountStatusType.login_failed => true
  | AccountStatusType.pending => false
  | AccountStatusType.running => false

/-- The terminal `account_status` records of a trace, in order. -/
def terminalRecords (evs : List AutomationEvent) : List AccountStatus :=
  (statusEvents evs).filter (fun d => isTerminal d.status)

/-- The account names of the terminal records of a trace, in order. -/
def terminalNames (evs : List AutomationEvent) : List String :=
  (terminalRecords evs).map (fun d => d.account)

-- ── Test fixtures (concrete environments for witnesses) ─────────────────────

/-- A credential used by concrete witnesses. -/
def testCred : Credential := ⟨"10700", "user1", "pw1", "CRN1", none⟩

/-- A login environment in which every step succeeds. -/
def happyLoginEnv : LoginEnv where
  gotoOk := true
  captureOk := true
  dpList := [⟨142, "10700", "Global IME Bank Limited"⟩]
  dpDropdown := [⟨"Global IME Bank Limited", "142"⟩]
  usernameFieldOk := true
  passwordFieldOk := true
  loginRespStatus := some 200
  loginRespBody := ""
  dashboardOk := true

/-- An issue item offering a visible Apply button. -/
def happyIssue : IssueItem := ⟨"Alpha Corp", [⟨true, "Apply"⟩]⟩

/-- A bulk environment in which every step succeeds and the confirmation
surface shows success vocabulary. -/
def happyBulkEnv : BulkEnv where
  login := happyLoginEnv
  asbaNavOk := true
  issues := [happyIssue]
  bankControl := some [⟨"Please choose one", ""⟩, ⟨"Acme Bank", "77"⟩]
  accountControl := some [⟨"0012345", "9"⟩]
  kittaVisible := true
  crnVisible := true
  declaration := some false
  proceedOk := true
  pinVisible := true
  finalBtnVisible := true
  bodyText := "Share has been applied"

-- ── Helper lemmas ───────────────────────────────────────────────────────────

/-- A successful `find?` splits the list at the first satisfying element. -/
theorem find?_split {α : Type} (p : α → Bool) :
    ∀ (l : List α) (a : α), l.find? p = some a →
      p a = true ∧ ∃ pre post, l = pre ++ a :: post ∧ ∀ x ∈ pre, p x = false := by
  intro l
  induction l with
  | nil => intro a h; simp [List.find?] at h
  | cons b rest ih =>
    intro a h
    by_cases hb : p b
    · rw [List.find?_cons_of_pos _ hb] at h
      cases h
      exact ⟨hb, [], rest, rfl, by simp⟩
    · rw [List.find?_cons_of_neg _ (by simpa using hb)] at h
      obtain ⟨hpa, pre, post, hsplit, hpre⟩ := ih a h
      refine ⟨hpa, b :: pre, post, by simp [hsplit], ?_⟩
      intro x hx
      rcases List.mem_cons.mp hx with rfl | hx
      · simpa using hb
      · exact hpre x hx

/-- Characterization of `selectFirstRealOptionAux` on success: the chosen option
is the first eligible one, at index `k + pre.length`. -/
theorem selectAux_ok_spec (fieldName : String) :
    ∀ (l : List SelectOption) (k i : Nat) (s : String),
      selectFirstRealOptionAux fieldName l k = Except.ok (i, s) →
      ∃ pre o post, l = pre ++ o :: post ∧ i = k + pre.length ∧
        optionEligible o = true ∧ s = jsTrim o.text ∧
        ∀ x ∈ pre, optionEligible x = false := by
  intro l
  induction l with
  | nil => intro k i s h; simp [selectFirstRealOptionAux] at h
  | cons o rest ih =>
    intro k i s h
    by_cases he : optionEligible o
    · rw [selectFirstRealOptionAux, if_pos he] at h
      cases h
      exact ⟨[], o, rest, rfl, by simp, he, rfl, by simp⟩
    · rw [selectFirstRealOptionAux, if_neg he] at h
      obtain ⟨pre, o', post, hsplit, hi, helig, hs, hpre⟩ := ih (k + 1) i s h
      refine ⟨o :: pre, o', post, by simp [hsplit], by simp [hi]; omega, helig, hs, ?_⟩
      intro x hx
      rcases List.mem_cons.mp hx with rfl | hx
      · simpa using he
      · exact hpre x hx

/-- Function `selectFirstRealOptionAux` fails exactly when no option is eligible. -/
theorem selectAux_err_spec (fieldName : String) :
    ∀ (l : List SelectOption) (k : Nat), (∀ o ∈ l, optionEligible o = false) →
      selectFirstRealOptionAux fieldName l k =
        Except.error ("[" ++ fieldName ++ "] No valid (non-placeholder) option found") := by
  intro l
  induction l with
  | nil => intro k _; rfl
  | cons o rest ih =>
    intro k hall
    rw [selectFirstRealOptionAux, if_neg (by simp [hall o (by simp)])]
    exact ih (k + 1) (fun x hx => hall x (by simp [hx]))

/-- Function `statusEvents` distributes over append. -/
theorem statusEvents_append (a b : List AutomationEvent) :
    statusEvents (a ++ b) = statusEvents a ++ statusEvents b := by
  simp [statusEvents]

/-- Pure `log` blocks contribute no status records. -/
theorem statusEvents_map_log (msgs : List String) :
    statusEvents (msgs.map AutomationEvent.log) = [] := by
  induction msgs with
  | nil => rfl
  | cons m rest ih => simpa [statusEvents] using ih

/-- Function `terminalNames` distributes over append. -/
theorem terminalNames_append (a b : List AutomationEvent) :
    terminalNames (a ++ b) = terminalNames a ++ terminalNames b := by
  simp [terminalNames, terminalRecords, statusEvents_append]

/-- A final `done` is not an `account_status` and leaves `terminalNames` unchanged. -/
theorem terminalNames_done : terminalNames [AutomationEvent.done] = [] := rfl

/-- A leading `log` leaves `terminalNames` unchanged. -/
theorem terminalNames_cons_log (m : String) (l : List AutomationEvent) :
    terminalNames (AutomationEvent.log m :: l) = terminalNames l := by
  simp [terminalNames, terminalRecords, statusEvents]

/-- The outcome of `formFill` ignores the typed values. -/
theorem formFill_snd (env : BulkEnv) (appliedKitta crn pin : String) :
    (formFill env appliedKitta crn pin).2 = formOutcome env := by
  unfold formFill formOutcome
  repeat' split
  all_goals rfl

/-- Any PIN typed by `formFill` is exactly the `pin` argument. -/
theorem formFill_typePin (env : BulkEnv) (appliedKitta crn pin p : String) :
    FormAction.typePin p ∈ (formFill env appliedKitta crn pin).1 → p = pin := by
  intro h
  unfold formFill at h
  repeat' split at h
  all_goals simp_all

/-- The bulk validation loop fails with the 404 message of a missing account
whenever some requested name has no stored credential. -/
theorem validateAccounts_error_of_missing (creds : List (String × Credential)) :
    ∀ (names : List String), (∃ n ∈ names, lookupCred creds n = none) →
      ∃ m ∈ names, lookupCred creds m = none ∧
        validateAccounts creds names = Except.error ("Account \"" ++ m ++ "\" not found") := by
  intro names
  induction names with
  | nil => rintro ⟨n, hn, _⟩; simp at hn
  | cons n rest ih =>
    rintro ⟨x, hx, hmiss⟩
    cases hn : lookupCred creds n with
    | none =>
      exact ⟨n, by simp, hn, by rw [validateAccounts, hn]⟩
    | some c =>
      have hxrest : x ∈ rest := by
        rcases List.mem_cons.mp hx with rfl | h
        · rw [hn] at hmiss; cases hmiss
        · exact h
      obtain ⟨m, hm, hmnone, hval⟩ := ih ⟨x, hxrest, hmiss⟩
      exact ⟨m, by simp [hm], hmnone, by rw [validateAccounts, hn, hval]⟩

-- ── Claim theorems ──────────────────────────────────────────────────────────

/-- Claim C5: every outgoing login POST is intercepted and, when it carries the
sentinel `clientId = 0` the portal's client framework would otherwise send,
the field is rewritten to the internal id of the participant resolved from
the captured list — so the submitted payload never carries the sentinel. -/
theorem login_clientId_rewrite (dpList : List DPInfo) (dpCode : String) (dp : DPInfo)
    (hres : resolveDP dpList dpCode = some dp) (hid : dp.id ≠ 0) (payload : LoginPayload) :
    (payload.clientId = 0 → rewriteAuthPost payload dp.id = { payload with clientId := dp.id })
    ∧ (rewriteAuthPost payload dp.id).clientId ≠ 0 := by
  constructor
  · intro h
    simp [rewriteAuthPost, h]
  · by_cases h : payload.clientId = 0
    · simpa [rewriteAuthPost, h] using hid
    · simpa [rewriteAuthPost, h] using h

/-- Witness for C5 at a concrete payload and resolved DP. -/
theorem login_clientId_rewrite_witness :
    (rewriteAuthPost ⟨0, "user"⟩ 142 = { (⟨0, "user"⟩ : LoginPayload) with clientId := 142 })
    ∧ (rewriteAuthPost ⟨0, "user"⟩ 142).clientId ≠ 0 :=
  ⟨(login_clientId_rewrite [⟨142, "10700", "Global IME Bank Limited"⟩] "10700"
      ⟨142, "10700", "Global IME Bank Limited"⟩ (by decide) (by decide) ⟨0, "user"⟩).1 rfl,
   (login_clientId_rewrite [⟨142, "10700", "Global IME Bank Limited"⟩] "10700"
      ⟨142, "10700", "Global IME Bank Limited"⟩ (by decide) (by decide) ⟨0, "user"⟩).2⟩

/-- Claim C6: resolution returns the first entry whose code matches exactly (never a
partial or substring match); with zero matches it returns none, and login then
stops right after the capture logs with the typed not-found error. -/
theorem resolveDP_exact_first (dpList : List DPInfo) (dpCode : String) :
    (∀ dp, resolveDP dpList dpCode = some dp →
      dp.code = dpCode ∧
        ∃ pre post, dpList = pre ++ dp :: post ∧ ∀ x ∈ pre, x.code ≠ dpCode)
    ∧ ((∀ dp ∈ dpList, dp.code ≠ dpCode) → resolveDP dpList dpCode = none)
    ∧ (∀ env cred, env.gotoOk = true → env.captureOk = true →
        resolveDP env.dpList dpCode = none →
        loginToMeroshare env cred dpCode =
          (["On login page", capturedDPsMsg env.dpList.length dpCode],
            Except.error (dpNotFoundMsg env.dpList dpCode))) := by
  refine ⟨?_, ?_, ?_⟩
  · intro dp h
    obtain ⟨hp, pre, post, hsplit, hpre⟩ := find?_split _ dpList dp h
    refine ⟨by simpa using hp, pre, post, hsplit, ?_⟩
    intro x hx
    simpa using hpre x hx
  · intro hall
    apply List.find?_eq_none.mpr
    intro x hx
    simpa using hall x hx
  · intro env cred hgoto hcap hres
    unfold loginToMeroshare
    rw [hgoto, hcap, hres]
    simp

/-- Witness for C6: a captured list without the configured code makes login
stop with the typed not-found error. -/
theorem resolveDP_exact_first_witness :
    loginToMeroshare { happyLoginEnv with dpList := [⟨7, "99999", "Other Bank"⟩] } testCred "10700" =
      (["On login page", capturedDPsMsg 1 "10700"],
        Except.error (dpNotFoundMsg [⟨7, "99999", "Other Bank"⟩] "10700")) :=
  (resolveDP_exact_first [⟨7, "99999", "Other Bank"⟩] "10700").2.2
    { happyLoginEnv with dpList := [⟨7, "99999", "Other Bank"⟩] } testCred rfl rfl (by decide)

/-- Claim C7: `selectFirstRealOption` picks the first option in document order whose
trimmed text is non-empty and placeholder-free (case-insensitive) and whose
value is non-empty and not a null/undefined sentinel; it fails when no option
qualifies; on `["Please Choose", "Acme Bank", "Beta Bank"]` it picks
`"Acme Bank"`. -/
theorem selectFirstRealOption_spec (opts : List SelectOption) (fieldName : String) :
    (∀ i s, selectFirstRealOption opts fieldName = Except.ok (i, s) →
      ∃ pre o post, opts = pre ++ o :: post ∧ i = pre.length ∧
        optionEligible o = true ∧ s = jsTrim o.text ∧
        ∀ x ∈ pre, optionEligible x = false)
    ∧ ((∀ o ∈ opts, optionEligible o = false) →
        selectFirstRealOption opts fieldName =
          Except.error ("[" ++ fieldName ++ "] No valid (non-placeholder) option found"))
    ∧ selectFirstRealOption
        [⟨"Please Choose", "10"⟩, ⟨"Acme Bank", "ACME"⟩, ⟨"Beta Bank", "BETA"⟩] "Bank" =
        Except.ok (1, "Acme Bank") := by
  refine ⟨?_, ?_, by decide⟩
  · intro i s h
    obtain ⟨pre, o, post, hsplit, hi, helig, hs, hpre⟩ :=
      selectAux_ok_spec fieldName opts 0 i s h
    exact ⟨pre, o, post, hsplit, by simpa using hi, helig, hs, hpre⟩
  · intro hall
    exact selectAux_err_spec fieldName opts 0 hall

/-- Witness for C7: a select with only placeholder options fails. -/
theorem selectFirstRealOption_spec_witness :
    selectFirstRealOption [⟨"Select Bank", "x"⟩, ⟨"  ", "y"⟩] "Bank" =
      Except.error ("[" ++ "Bank" ++ "] No valid (non-placeholder) option found") :=
  (selectFirstRealOption_spec [⟨"Select Bank", "x"⟩, ⟨"  ", "y"⟩] "Bank").2.1 (by decide)

/-- Claim C8: the shared busy flag admits one top-level request at a time: requests
arriving while it is set get an immediate conflict response (state unchanged,
nothing started); every accepted request sets the flag; the settle handler
clears it unconditionally; and with the flag clear no request is
conflict-rejected. -/
theorem busy_flag_discipline (st : ServerSt) (creds : List (String × Credential))
    (rb : RunBody) (sb : ScanBody) (ab : ApplyBody) (bb : BulkBody) :
    (st.running = true →
      apiRun st creds rb = (st, ApiResponse.conflict, false) ∧
      apiScan st creds sb = (st, ApiResponse.conflict, false) ∧
      apiApply st creds ab = (st, ApiResponse.conflict, false) ∧
      apiBulkApply st creds bb = (st, ApiResponse.conflict, false))
    ∧ ((apiRun st creds rb).2.2 = true → (apiRun st creds rb).1.running = true)
    ∧ ((apiScan st creds sb).2.2 = true → (apiScan st creds sb).1.running = true)
    ∧ ((apiApply st creds ab).2.2 = true → (apiApply st creds ab).1.running = true)
    ∧ ((apiBulkApply st creds bb).2.2 = true → (apiBulkApply st creds bb).1.running = true)
    ∧ (st.running = false →
        (apiRun st creds rb).2.1 ≠ ApiResponse.conflict ∧
        (apiScan st creds sb).2.1 ≠ ApiResponse.conflict ∧
        (apiApply st creds ab).2.1 ≠ ApiResponse.conflict ∧
        (apiBulkApply st creds bb).2.1 ≠ ApiResponse.conflict)
    ∧ (settleAutomation st).running = false := by
  refine ⟨?_, ?_, ?_, ?_, ?_, ?_, rfl⟩
  · intro h
    refine ⟨?_, ?_, ?_, ?_⟩ <;> simp [apiRun, apiScan, apiApply, apiBulkApply, h]
  · unfold apiRun
    repeat' split
    all_goals simp
  · unfold apiScan
    repeat' split
    all_goals simp
  · unfold apiApply
    repeat' split
    all_goals simp
  · unfold apiBulkApply
    repeat' split
    all_goals simp
  · intro h
    refine ⟨?_, ?_, ?_, ?_⟩ <;>
      · simp only [apiRun, apiScan, apiApply, apiBulkApply, h]
        repeat' split
        all_goals simp_all

/-- Witness for C8: a busy server conflict-rejects, and settling clears. -/
theorem busy_flag_discipline_witness :
    apiRun ⟨true⟩ [] ⟨some "A", 5⟩ = (⟨true⟩, ApiResponse.conflict, false) ∧
    (settleAutomation ⟨true⟩).running = false :=
  ⟨((busy_flag_discipline ⟨true⟩ [] ⟨some "A", 5⟩ ⟨some "A"⟩
      ⟨some "A", some 0, some "10", some "1111"⟩
      ⟨some ["A"], some "Alpha Corp", some "10", some "1111", []⟩).1 rfl).1,
   (busy_flag_discipline ⟨true⟩ [] ⟨some "A", 5⟩ ⟨some "A"⟩
      ⟨some "A", some 0, some "10", some "1111"⟩
      ⟨some ["A"], some "Alpha Corp", some "10", some "1111", []⟩).2.2.2.2.2.2⟩

/-- Claim C10: when some requested account name has no stored credential, the
bulk-apply endpoint answers 404 for a missing name, starts no automation,
opens no stream, and leaves the busy flag unset. -/
theorem bulkApply_validates_before_admission (st : ServerSt)
    (creds : List (String × Credential)) (bb : BulkBody) (names : List String)
    (hrun : st.running = false)
    (hacc : bb.accounts = some names) (hne : names.isEmpty = false)
    (hcn : strFalsy bb.companyName = false) (hk : strFalsy bb.appliedKitta = false)
    (hp : strFalsy bb.transactionPIN = false)
    (hmiss : ∃ n ∈ names, lookupCred creds n = none) :
    ∃ m ∈ names, lookupCred creds m = none ∧
      apiBulkApply st creds bb =
        (st, ApiResponse.notFound ("Account \"" ++ m ++ "\" not found"), false) := by
  obtain ⟨m, hm, hmnone, hval⟩ := validateAccounts_error_of_missing creds names hmiss
  refine ⟨m, hm, hmnone, ?_⟩
  unfold apiBulkApply
  rw [hacc]
  simp [hrun, hne, hcn, hk, hp, hval]

/-- Witness for C10: one unknown name among the requested accounts yields 404
with the busy flag still clear and nothing started. -/
theorem bulkApply_validates_before_admission_witness :
    ∃ m ∈ ["A", "B"], lookupCred [("A", testCred)] m = none ∧
      apiBulkApply ⟨false⟩ [("A", testCred)]
          ⟨some ["A", "B"], some "Alpha Corp", some "10", some "1111", []⟩ =
        (⟨false⟩, ApiResponse.notFound ("Account \"" ++ m ++ "\" not found"), false) :=
  bulkApply_validates_before_admission ⟨false⟩ [("A", testCred)]
    ⟨some ["A", "B"], some "Alpha Corp", some "10", some "1111", []⟩ ["A", "B"]
    rfl rfl rfl rfl rfl rfl ⟨"B", by decide, by decide⟩

/-- A bulk environment whose only issue item offers a visible Edit button and
no Apply button. -/
def editOnlyEnv : BulkEnv :=
  { happyBulkEnv with issues := [⟨"Alpha Corp", [⟨true, "Edit"⟩]⟩] }

/-- Claim C2: when only an edit affordance is detected on the target offer (no apply
affordance), the bulk iteration terminates with `already_applied` — a
non-error outcome — and performs no form-field interaction at all. -/
theorem edit_only_already_applied (targetCompanyName appliedKitta defaultPIN : String)
    (accountPINs : List (String × String)) (accountName : String) (cred : Credential)
    (env : BulkEnv) (item : IssueItem)
    (hlogin : (loginToMeroshare env.login cred cred.DP_CODE).2 = Except.ok ())
    (hnav : env.asbaNavOk = true)
    (hfind : findTargetItem env.issues targetCompanyName = some item)
    (hedit : hasEditButton item = true) (happly : hasApplyButton item = false) :
    (processAccount targetCompanyName appliedKitta defaultPIN accountPINs
        accountName cred env).1 =
      acctStatus accountName AccountStatusType.running "Logging in..." ::
        (loginToMeroshare env.login cred cred.DP_CODE).1.map AutomationEvent.log ++
        [acctStatus accountName AccountStatusType.already_applied
          "Already applied (Edit button found)"]
    ∧ (processAccount targetCompanyName appliedKitta defaultPIN accountPINs
        accountName cred env).2 = [] := by
  have hlen : ¬ env.issues.length = 0 := by
    intro h0
    rw [List.length_eq_zero.mp h0] at hfind
    simp [findTargetItem] at hfind
  constructor <;>
    simp [processAccount, hlogin, hnav, hlen, hfind, hedit, happly]

/-- Witness for C2 on a concrete edit-only environment. -/
theorem edit_only_already_applied_witness :
    (processAccount "Alpha Corp" "10" "1234" [] "A" testCred editOnlyEnv).1 =
      acctStatus "A" AccountStatusType.running "Logging in..." ::
        (loginToMeroshare editOnlyEnv.login testCred testCred.DP_CODE).1.map AutomationEvent.log ++
        [acctStatus "A" AccountStatusType.already_applied "Already applied (Edit button found)"]
    ∧ (processAccount "Alpha Corp" "10" "1234" [] "A" testCred editOnlyEnv).2 = [] :=
  edit_only_already_applied "Alpha Corp" "10" "1234" [] "A" testCred editOnlyEnv
    ⟨"Alpha Corp", [⟨true, "Edit"⟩]⟩ (by decide) rfl (by decide) (by decide) (by decide)

/-- Counterexample for C3: with a present-but-empty per-account override and
default PIN `1234`, the PIN actually typed is `1234`, not the present override
`""` — the code uses JS `||`, not `??`. -/
theorem pin_override_counterexample :
    FormAction.typePin "1234" ∈
        (processAccount "Alpha Corp" "10" "1234" [("A", "")] "A" testCred happyBulkEnv).2
    ∧ FormAction.typePin "" ∉
        (processAccount "Alpha Corp" "10" "1234" [("A", "")] "A" testCred happyBulkEnv).2 := by
  decide

/-- Claim C3 (amended): the effective PIN is the per-account override when present
and non-empty, and the default PIN when the override is absent or empty
(JS `||` semantics); any PIN typed during a bulk iteration is exactly this
effective PIN. -/
theorem effectivePin_spec (accountPINs : List (String × String))
    (accountName defaultPIN : String) :
    (∀ p, accountPINs.lookup accountName = some p → p ≠ "" →
      effectivePin accountPINs accountName defaultPIN = p)
    ∧ (accountPINs.lookup accountName = some "" →
      effectivePin accountPINs accountName defaultPIN = defaultPIN)
    ∧ (accountPINs.lookup accountName = none →
      effectivePin accountPINs accountName defaultPIN = defaultPIN)
    ∧ (∀ targetCompanyName appliedKitta cred env p,
        FormAction.typePin p ∈
          (processAccount targetCompanyName appliedKitta defaultPIN accountPINs
            accountName cred env).2 →
        p = effectivePin accountPINs accountName defaultPIN) := by
  refine ⟨?_, ?_, ?_, ?_⟩
  · intro p hp hne
    simp [effectivePin, hp, hne]
  · intro hp
    simp [effectivePin, hp]
  · intro hp
    simp [effectivePin, hp]
  · intro targetCompanyName appliedKitta cred env p hmem
    simp only [processAccount] at hmem
    repeat' split at hmem
    all_goals try simp_all
    all_goals exact formFill_typePin _ _ _ _ _ hmem

/-- Witness for C3 (amended): a non-empty override wins, an empty one falls
back to the default. -/
theorem effectivePin_spec_witness :
    effectivePin [("A", "9999")] "A" "1234" = "9999" ∧
    effectivePin [("A", "")] "A" "1234" = "1234" :=
  ⟨(effectivePin_spec [("A", "9999")] "A" "1234").1 "9999" (by decide) (by decide),
   (effectivePin_spec [("A", "")] "A" "1234").2.1 (by decide)⟩

/-- Counterexample for C4: a bulk run whose confirmation surface shows no success
vocabulary and one that does both end in the same discriminated status
`success` — the two outcomes are collapsed into a single success status and
differ only in message. -/
theorem unconfirmed_status_collapse_counterexample :
    (processAccount "Alpha Corp" "10" "1234" [] "A" testCred
        { happyBulkEnv with bodyText := "Thank you" }).1.getLast? =
      some (acctStatus "A" AccountStatusType.success
        "Application submitted. Check Meroshare for confirmation.")
    ∧ (processAccount "Alpha Corp" "10" "1234" [] "A" testCred happyBulkEnv).1.getLast? =
      some (acctStatus "A" AccountStatusType.success
        "Application submitted successfully") := by
  decide

/-- Claim C4 (amended): without recognizable success vocabulary the single-account
flow surfaces an informational `log` (never `apply_success`); the bulk flow
then never emits the confirmed-success record — it emits status `success`
with the distinct unconfirmed message, so confirmed and unconfirmed are
distinguishable only by message, while the remaining terminal outcomes are
distinguishable by status. -/
theorem confirmation_outcomes (companyName : String) :
    (∀ bodyText, successVocab bodyText = false →
      applyConfirmEvent bodyText companyName =
        AutomationEvent.log ("Application submitted for " ++ companyName ++
          ". Check Meroshare for status.") ∧
      ∀ m, applyConfirmEvent bodyText companyName ≠ AutomationEvent.apply_success m)
    ∧ (∀ bodyText, successVocab bodyText = true →
      applyConfirmEvent bodyText companyName =
        AutomationEvent.apply_success ("Successfully applied for " ++ companyName))
    ∧ (∀ targetCompanyName appliedKitta defaultPIN accountPINs accountName cred env,
        successVocab env.bodyText = false →
        acctStatus accountName AccountStatusType.success "Application submitted successfully"
          ∉ (processAccount targetCompanyName appliedKitta defaultPIN accountPINs
              accountName cred env).1) := by
  refine ⟨?_, ?_, ?_⟩
  · intro bodyText hv
    constructor
    · simp [applyConfirmEvent, hv]
    · intro m
      simp [applyConfirmEvent, hv]
  · intro bodyText hv
    simp [applyConfirmEvent, hv]
  · intro targetCompanyName appliedKitta defaultPIN accountPINs accountName cred env hv hmem
    simp only [processAccount] at hmem
    repeat' split at hmem
    all_goals simp_all [acctStatus]

/-- Witness for C4 (amended) at a concrete unconfirmed surface. -/
theorem confirmation_outcomes_witness :
    applyConfirmEvent "Thank you" "Alpha Corp" =
      AutomationEvent.log ("Application submitted for " ++ "Alpha Corp" ++
        ". Check Meroshare for status.") :=
  ((confirmation_outcomes "Alpha Corp").1 "Thank you" (by decide)).1

/-- The event component of `processAccount`, which depends on neither the
default PIN, the per-account overrides, nor any credential secret. -/
def processAccountEvents (targetCompanyName accountName : String) (cred : Credential)
    (env : BulkEnv) : List AutomationEvent :=
  let running1 := acctStatus accountName AccountStatusType.running "Logging in..."
  let loginRes := loginToMeroshare env.login cred cred.DP_CODE
  let loginEvents := loginRes.1.map AutomationEvent.log
  match loginRes.2 with
  | Except.error e =>
      [running1] ++ loginEvents ++
        [acctStatus accountName AccountStatusType.login_failed ("Login failed: " ++ e)]
  | Except.ok _ =>
    if ¬ env.asbaNavOk then
      [running1] ++ loginEvents ++
        [acctStatus accountName AccountStatusType.error "Timeout waiting for My ASBA page"]
    else if env.issues.length = 0 then
      [running1] ++ loginEvents ++
        [acctStatus accountName AccountStatusType.error "No open issues found on this account"]
    else
      match findTargetItem env.issues targetCompanyName with
      | none =>
          [running1] ++ loginEvents ++
            [acctStatus accountName AccountStatusType.error
              ("IPO \"" ++ targetCompanyName ++ "\" not found in this account's issue list")]
      | some item =>
        if hasEditButton item && ¬ hasApplyButton item then
          [running1] ++ loginEvents ++
            [acctStatus accountName AccountStatusType.already_applied
              "Already applied (Edit button found)"]
        else if ¬ hasApplyButton item then
          [running1] ++ loginEvents ++
            [acctStatus accountName AccountStatusType.error "No Apply button found for this IPO"]
        else
          let running2 := acctStatus accountName AccountStatusType.running
            "Filling application form..."
          match formOutcome env with
          | Except.error m =>
              [running1] ++ loginEvents ++ [running2] ++
                [acctStatus accountName AccountStatusType.error m]
          | Except.ok _ =>
              if successVocab env.bodyText then
                [running1] ++ loginEvents ++ [running2] ++
                  [acctStatus accountName AccountStatusType.success
                    "Application submitted successfully"]
              else
                [running1] ++ loginEvents ++ [running2] ++
                  [acctStatus accountName AccountStatusType.success
                    "Application submitted. Check Meroshare for confirmation."]

/-- The events of a bulk iteration are exactly `processAccountEvents`. -/
theorem processAccount_fst (targetCompanyName appliedKitta defaultPIN : String)
    (accountPINs : List (String × String)) (accountName : String) (cred : Credential)
    (env : BulkEnv) :
    (processAccount targetCompanyName appliedKitta defaultPIN accountPINs
        accountName cred env).1 =
      processAccountEvents targetCompanyName accountName cred env := by
  simp only [processAccount, processAccountEvents, formFill_snd]
  repeat' split
  all_goals simp_all

/-- Claim C9: two runs that differ only in the secrets (login password, transaction
PIN, PIN overrides) emit identical event traces, so no `log` record can
reveal a secret: the login flow, the single-account application flow and the
bulk per-account flow are all secret-independent. -/
theorem secrets_never_logged (lenv : LoginEnv) (aenv : ApplyEnv) (benv : BulkEnv)
    (dpC u crn : String) (t1 t2 : Option String) (p1 p2 : String)
    (dpCode accountName targetCompanyName appliedKitta : String) (companyIndex : Int)
    (pin1 pin2 defaultPIN1 defaultPIN2 : String) (pins1 pins2 : List (String × String)) :
    loginToMeroshare lenv ⟨dpC, u, p1, crn, t1⟩ dpCode =
      loginToMeroshare lenv ⟨dpC, u, p2, crn, t2⟩ dpCode
    ∧ applyForIPO aenv accountName ⟨dpC, u, p1, crn, t1⟩ companyIndex appliedKitta pin1 =
      applyForIPO aenv accountName ⟨dpC, u, p2, crn, t2⟩ companyIndex appliedKitta pin2
    ∧ (processAccount targetCompanyName appliedKitta defaultPIN1 pins1 accountName
        ⟨dpC, u, p1, crn, t1⟩ benv).1 =
      (processAccount targetCompanyName appliedKitta defaultPIN2 pins2 accountName
        ⟨dpC, u, p2, crn, t2⟩ benv).1 := by
  refine ⟨rfl, rfl, ?_⟩
  rw [processAccount_fst, processAccount_fst]
  rfl

/-- Every bulk iteration emits exactly one terminal record, carrying its own
account name, and never a `done`. -/
theorem processAccount_terminal_spec (targetCompanyName appliedKitta defaultPIN : String)
    (accountPINs : List (String × String)) (accountName : String) (cred : Credential)
    (env : BulkEnv) :
    terminalNames (processAccount targetCompanyName appliedKitta defaultPIN accountPINs
        accountName cred env).1 = [accountName]
    ∧ AutomationEvent.done ∉ (processAccount targetCompanyName appliedKitta defaultPIN
        accountPINs accountName cred env).1 := by
  constructor <;>
  · simp only [processAccount]
    repeat' split
    all_goals
      simp_all [terminalNames, terminalRecords, statusEvents, acctStatus, isTerminal,
        statusEvents_map_log, List.filterMap_append, List.filterMap_cons]

/-- Claim C1: a bulk batch over any account list emits exactly one terminal
`account_status` per account, with the account names in input order (so each
name exactly once, and no individual failure aborts the rest), followed by
exactly one final `done`. -/
theorem bulk_terminal_accounting (runs : List AccountRun)
    (targetCompanyName appliedKitta defaultPIN : String)
    (accountPINs : List (String × String)) :
    terminalNames (bulkApplyForIPO runs targetCompanyName appliedKitta defaultPIN accountPINs) =
      runs.map (fun r => r.name)
    ∧ (bulkApplyForIPO runs targetCompanyName appliedKitta defaultPIN accountPINs).getLast? =
      some AutomationEvent.done
    ∧ (bulkApplyForIPO runs targetCompanyName appliedKitta defaultPIN accountPINs).count
        AutomationEvent.done = 1 := by
  have hflat : terminalNames (runs.flatMap (fun r =>
        (processAccount targetCompanyName appliedKitta defaultPIN accountPINs
          r.name r.cred r.env).1)) = runs.map (fun r => r.name)
      ∧ AutomationEvent.done ∉ runs.flatMap (fun r =>
        (processAccount targetCompanyName appliedKitta defaultPIN accountPINs
          r.name r.cred r.env).1) := by
    induction runs with
    | nil => exact ⟨rfl, by simp⟩
    | cons r rest ih =>
      obtain ⟨h1, h2⟩ := processAccount_terminal_spec targetCompanyName appliedKitta
        defaultPIN accountPINs r.name r.cred r.env
      refine ⟨?_, ?_⟩
      · simp [List.flatMap_cons, terminalNames_append, h1, ih.1]
      · simp [List.flatMap_cons, h2, ih.2]
  refine ⟨?_, ?_, ?_⟩
  · simp only [bulkApplyForIPO]
    rw [terminalNames_append, terminalNames_cons_log, hflat.1, terminalNames_done]
    simp
  · simp only [bulkApplyForIPO]
    exact List.getLast?_concat _
  · simp only [bulkApplyForIPO]
    simp [List.count_append, List.count_cons, List.count_eq_zero.mpr hflat.2]

end Meroshare
